import Mathlib

/-!
Shallow embedding of the FindDiffTool geometry engine.

Sources embedded here:
* `src/models.py` — the `Difference` dataclass and the constants
  `RADIUS_LEVELS`, `MIN_RECT_SIZE`, canvas size.
* `src/graphics.py` — `DifferenceModel` (mutators `set_rect`, `set_circle`,
  `set_click_center`, `set_click_axes`, `set_click_shape`, `begin`/`end`),
  the `_DiffBus` registry, and the pieces of `DifferenceItem` that decide the
  claims: `_clamp_scene_rect`, the `mouseMoveEvent` resize/click branches,
  `mousePressEvent` hit-test dispatch, `_hit_click_handle`,
  `_hit_click_inside`, `_hit_corner`, `_hit_edge`, `_current_click_local`,
  `_clamp_center_to_scene`.
* `src/editor.py` — the auto hint-level selection inside `update_handles`.

Embedding conventions: Python floats become rationals (`ℚ`); float literals
such as `1e-6` become the rational the literal denotes; Python `!=` / `==`
on floats become `ℚ` (in)equality.  Euclidean-distance comparisons
`QLineF(p, q).length() <= t` are embedded as squared comparisons
`(p.x-q.x)^2 + (p.y-q.y)^2 ≤ t^2`, equivalent for the nonnegative
thresholds the source uses.  Qt signal emission becomes an explicit list of
emitted signals returned next to the new state.
-/

namespace FindDiff

/-- Signals of `DifferenceModel` (graphics.py lines 17-19). -/
inductive Sig
  | geometryChanged
  | circleChanged
  | anyChanged
deriving DecidableEq, Repr

/-- The `Difference` dataclass (models.py lines 23-47).  Metadata strings are
kept opaque; geometry fields are rationals. -/
structure Difference where
  id : String
  name : String
  -- the source field is called `section` ('up' | 'down'); `section` is a
  -- Lean keyword, hence the name `sectionTag`
  sectionTag : String
  category : String
  label : String
  enabled : Bool
  visible : Bool
  x : ℚ
  y : ℚ
  width : ℚ
  height : ℚ
  hint_level : ℤ := 1
  cx : ℚ := -1
  cy : ℚ := -1
  click_customized : Bool := false
  ccx : ℚ := -1
  ccy : ℚ := -1
  ca : ℚ := 0
  cb : ℚ := 0
  cshape : String := "rect"
deriving DecidableEq, Repr

/-- State of one `DifferenceModel` (graphics.py lines 21-26): the wrapped
dataclass plus the `_updating` batch flag. -/
structure MState where
  data : Difference
  updating : Bool := false
deriving DecidableEq, Repr

/-- `MIN_RECT_SIZE` (models.py line 9). -/
def MIN_RECT_SIZE : ℚ := 110

/-- `RADIUS_LEVELS` (models.py line 7). -/
def RADIUS_LEVELS : List ℚ :=
  [53, 59, 65, 71, 76, 81, 85, 90, 95, 100, 105, 110, 117, 124, 129]

/-- `DifferenceModel.set_rect` (graphics.py lines 66-79).  Returns the new
state together with the list of emitted signals, in emission order. -/
def setRect (s : MState) (x y w h : ℚ) (force : Bool) : MState × List Sig :=
  if s.updating = true ∧ force = false then (s, [])
  else
    let d := s.data
    -- changed = (x != d.x) or (y != d.y) or (w != d.width) or (h != d.height)
    if (x = d.x ∧ y = d.y ∧ w = d.width ∧ h = d.height) ∧ force = false then
      (s, [])
    else
      ({ s with data := { d with x := x, y := y, width := w, height := h } },
       [Sig.geometryChanged, Sig.anyChanged])

/-- `DifferenceModel.set_circle` (graphics.py lines 81-89). -/
def setCircle (s : MState) (cx cy : ℚ) : MState × List Sig :=
  if s.updating = true then (s, [])
  else
    let d := s.data
    if cx = d.cx ∧ cy = d.cy then (s, [])
    else
      ({ s with data := { d with cx := cx, cy := cy } },
       [Sig.circleChanged, Sig.anyChanged])

/-- `DifferenceModel.set_click_center` (graphics.py lines 92-101). -/
def setClickCenter (s : MState) (cxAbs cyAbs : ℚ) : MState × List Sig :=
  if s.updating = true then (s, [])
  else
    let d := s.data
    if cxAbs = d.ccx ∧ cyAbs = d.ccy then (s, [])
    else
      ({ s with data := { d with ccx := cxAbs, ccy := cyAbs, click_customized := true } },
       [Sig.anyChanged])

/-- `DifferenceModel.set_click_axes` (graphics.py lines 103-112).
The source first normalises `a = max(1.0, a)`, `b = max(1.0, b)` and only
then compares with the stored values. -/
def setClickAxes (s : MState) (a0 b0 : ℚ) : MState × List Sig :=
  if s.updating = true then (s, [])
  else
    let d := s.data
    let a := max 1 a0
    let b := max 1 b0
    if a = d.ca ∧ b = d.cb then (s, [])
    else
      ({ s with data := { d with ca := a, cb := b, click_customized := true } },
       [Sig.anyChanged])

/-- Python's `str.lower()`, character by character. -/
def pyLower (s : String) : String := ⟨s.data.map Char.toLower⟩

/-- Shape-string normalisation performed by `set_click_shape`
(graphics.py lines 117-118): empty input falls back to `"rect"`, the input
is lower-cased, and anything outside `{"rect","ellipse"}` becomes
`"rect"`. -/
def normalizeShape (sh : String) : String :=
  let t := pyLower (if sh = "" then "rect" else sh)
  if t = "rect" ∨ t = "ellipse" then t else "rect"

/-- `DifferenceModel.set_click_shape` (graphics.py lines 114-123). -/
def setClickShape (s : MState) (sh0 : String) : MState × List Sig :=
  if s.updating = true then (s, [])
  else
    let d := s.data
    let sh := normalizeShape sh0
    if sh = d.cshape then (s, [])
    else
      ({ s with data := { d with cshape := sh, click_customized := true } },
       [Sig.anyChanged])

/-- `DifferenceModel.begin` (graphics.py line 126). -/
def beginUpdate (s : MState) : MState := { s with updating := true }

/-- `DifferenceModel.end` (graphics.py lines 127-129): clears the flag and
unconditionally emits `anyChanged`. -/
def endUpdate (s : MState) : MState × List Sig :=
  ({ s with updating := false }, [Sig.anyChanged])

/-- `DifferenceModel.__init__` (graphics.py lines 21-26): wraps the
dataclass with `_updating = False` and runs `set_rect(d.x, d.y, d.width,
d.height, force=True)`. -/
def initModel (d : Difference) : MState :=
  (setRect { data := d, updating := false } d.x d.y d.width d.height true).1

/-- The `_DiffBus` id → model map (graphics.py lines 136-147), embedded as an
association list. -/
def Bus := List (String × MState)

/-- `_DiffBus.get_model` / `get_model_for_difference` (graphics.py lines
140-150): get-or-create by `d.id`. -/
def getModel (bus : Bus) (d : Difference) : MState × Bus :=
  match List.lookup d.id bus with
  | some m => (m, bus)
  | none => let m := initModel d; (m, (d.id, m) :: bus)

/-! ### Auto hint-level selection (editor.py, `update_handles`, lines 487-500) -/

/-- The list comprehension `[lvl for lvl in RADIUS_LEVELS if lvl <= max_half-10]`
with `max_half = min(max(1.0, w), max(1.0, h)) / 2` (editor.py lines 488-491). -/
def autoAllowed (w h : ℚ) : List ℚ :=
  let size := min (max 1 w) (max 1 h)
  RADIUS_LEVELS.filter (fun lvl => decide (lvl ≤ size / 2 - 10))

/-- The radius chosen by `update_handles` (editor.py lines 495-499):
`allowed[-1]` when `allowed` is nonempty, else the raw half-extent. -/
def autoRadius (w h : ℚ) : ℚ :=
  let size := min (max 1 w) (max 1 h)
  match (autoAllowed w h).getLast? with
  | some r => r
  | none => size / 2

/-- The 1-based hint level written by `update_handles` (editor.py lines
495-500): `len(allowed)` when `allowed` is nonempty, else `1`. -/
def autoLevel (w h : ℚ) : ℕ :=
  if autoAllowed w h = [] then 1 else (autoAllowed w h).length

/-! ### View-layer geometry (graphics.py, `DifferenceItem`) -/

/-- A point (`QPointF`). -/
structure Pt where
  x : ℚ
  y : ℚ
deriving DecidableEq, Repr

/-- A scene rectangle (`QRectF` seen through `left/top/right/bottom`). -/
structure Scene where
  left : ℚ
  top : ℚ
  right : ℚ
  bottom : ℚ
deriving DecidableEq, Repr

/-- A model rectangle `(x, y, w, h)`. -/
structure RectQ where
  x : ℚ
  y : ℚ
  w : ℚ
  h : ℚ
deriving DecidableEq, Repr

/-- One axis of `_clamp_scene_rect` (the x- and y-computations of the source
are fully independent; this is the common 1-D computation). -/
def clampAxis (lo hi tlv brv : ℚ) : ℚ × ℚ :=
  let t1 := min tlv brv
  let b1 := max t1 brv
  let t2 := max lo t1
  let b2 := min hi b1
  let w := max MIN_RECT_SIZE (b2 - t2)
  (t2, min hi (t2 + w))

/-- `DifferenceItem._clamp_scene_rect` (graphics.py lines 1084-1099).  Note
that the source's second "normalisation" line already reads the reassigned
`tl`, so `br` is effectively left unchanged there; `clampAxis` reproduces
exactly that computation per axis. -/
def clampSceneRect (tl br : Pt) (sc : Scene) : Pt × Pt :=
  let xa := clampAxis sc.left sc.right tl.x br.x
  let ya := clampAxis sc.top sc.bottom tl.y br.y
  (⟨xa.1, ya.1⟩, ⟨xa.2, ya.2⟩)

/-- The rectangle passed to `model.set_rect` by the `RESIZE_CORNER` branch of
`mouseMoveEvent` (graphics.py lines 772-781): bounding box of the pointer and
the press-time opposite-corner anchor, run through `_clamp_scene_rect`, then
`w`/`h` floored once more by `max(MIN_RECT_SIZE, ·)`. -/
def resizeCornerRect (anchor cur : Pt) (sc : Scene) : RectQ :=
  let tl : Pt := ⟨min cur.x anchor.x, min cur.y anchor.y⟩
  let br : Pt := ⟨max cur.x anchor.x, max cur.y anchor.y⟩
  let c := clampSceneRect tl br sc
  ⟨c.1.x, c.1.y,
   max MIN_RECT_SIZE (c.2.x - c.1.x), max MIN_RECT_SIZE (c.2.y - c.1.y)⟩

/-- Edge codes `'L' | 'R' | 'T' | 'B'`. -/
inductive EdgeCode
  | L
  | R
  | T
  | B
deriving DecidableEq, Repr

/-- The rectangle passed to `model.set_rect` by the `RESIZE_EDGE` branch of
`mouseMoveEvent` (graphics.py lines 784-800): starting from the press-time
`tl0`/`br0`, only the dragged side is replaced (kept at least
`MIN_RECT_SIZE` away from the opposite side), then `_clamp_scene_rect` and
the final `max(MIN_RECT_SIZE, ·)` floors are applied. -/
def resizeEdgeRect (code : EdgeCode) (tl0 br0 cur : Pt) (sc : Scene) : RectQ :=
  let tl : Pt :=
    match code with
    | EdgeCode.L => ⟨min cur.x (br0.x - MIN_RECT_SIZE), tl0.y⟩
    | EdgeCode.T => ⟨tl0.x, min cur.y (br0.y - MIN_RECT_SIZE)⟩
    | _ => tl0
  let br : Pt :=
    match code with
    | EdgeCode.R => ⟨max cur.x (tl0.x + MIN_RECT_SIZE), br0.y⟩
    | EdgeCode.B => ⟨br0.x, max cur.y (tl0.y + MIN_RECT_SIZE)⟩
    | _ => br0
  let c := clampSceneRect tl br sc
  ⟨c.1.x, c.1.y,
   max MIN_RECT_SIZE (c.2.x - c.1.x), max MIN_RECT_SIZE (c.2.y - c.1.y)⟩

/-! ### Click-region drag branches of `mouseMoveEvent` -/

/-- The `CLICK_MOVE` branch (graphics.py lines 834-850).  `pressLocal`,
`pressCenter`, `a0`, `b0` are the press-time snapshots (`_click_press_local`,
`_click_press_center`, `_click_press_a`, `_click_press_b`); `cur` is the
pointer position in item-local coordinates. -/
def clickMoveStep (s : MState) (pressLocal pressCenter : Pt) (a0 b0 : ℚ)
    (cur : Pt) (sc : Scene) : MState × List Sig :=
  let dx := cur.x - pressLocal.x
  let dy := cur.y - pressLocal.y
  let cxMoved := pressCenter.x + dx
  let cyMoved := pressCenter.y + dy
  let aFix := max 1 a0
  let bFix := max 1 b0
  let cxScene0 := s.data.x + cxMoved
  let cyScene0 := s.data.y + cyMoved
  let cxScene := min (max (sc.left + aFix) cxScene0) (sc.right - aFix)
  let cyScene := min (max (sc.top + bFix) cyScene0) (sc.bottom - bFix)
  setClickCenter s cxScene cyScene

/-- The `CLICK_EDGE` branch (graphics.py lines 852-873).  The center is the
press-time snapshot and is never written; only the semi-axes are updated and
clamped about the fixed center. -/
def clickEdgeStep (s : MState) (code : EdgeCode) (pressCenter : Pt)
    (a0 b0 : ℚ) (cur : Pt) (sc : Scene) : MState × List Sig :=
  let cxLoc := pressCenter.x
  let cyLoc := pressCenter.y
  let aNew1 : ℚ :=
    match code with
    | EdgeCode.L | EdgeCode.R => |cur.x - cxLoc|
    | _ => a0
  let bNew1 : ℚ :=
    match code with
    | EdgeCode.T | EdgeCode.B => |cur.y - cyLoc|
    | _ => b0
  let cxScene := s.data.x + cxLoc
  let cyScene := s.data.y + cyLoc
  let maxA := max 1 (min (cxScene - sc.left) (sc.right - cxScene))
  let maxB := max 1 (min (cyScene - sc.top) (sc.bottom - cyScene))
  let aNew := max 1 (min aNew1 maxA)
  let bNew := max 1 (min bNew1 maxB)
  setClickAxes s aNew bNew

/-- The `CLICK_CORNER` branch (graphics.py lines 874-897).  For the ellipse
shape the source scales both axes by the ratio of the Euclidean lengths
`|cur - c0| / max(1e-6, |press - c0|)`; that square-root ratio is not a
rational function of the inputs, so it is taken here as the parameter
`ratio`.  Only the semi-axes are written; the center is the press-time
snapshot. -/
def clickCornerStep (s : MState) (pressCenter : Pt) (a0 b0 : ℚ)
    (shape : String) (ratio : ℚ) (cur : Pt) (sc : Scene) : MState × List Sig :=
  let cxLoc := pressCenter.x
  let cyLoc := pressCenter.y
  let aNew1 : ℚ :=
    if shape = "rect" then |cur.x - cxLoc| else max 1 (a0 * ratio)
  let bNew1 : ℚ :=
    if shape = "rect" then |cur.y - cyLoc| else max 1 (b0 * ratio)
  let cxScene := s.data.x + cxLoc
  let cyScene := s.data.y + cyLoc
  let maxA := max 1 (min (cxScene - sc.left) (sc.right - cxScene))
  let maxB := max 1 (min (cyScene - sc.top) (sc.bottom - cyScene))
  let aNew := max 1 (min aNew1 maxA)
  let bNew := max 1 (min bNew1 maxB)
  setClickAxes s aNew bNew

/-! ### Hit testing (`mousePressEvent` and its helpers) -/

/-- `QLineF(p, q).length() <= t` for the nonnegative thresholds used by the
source, embedded as a squared comparison. -/
def distLe (p q : Pt) (t : ℚ) : Bool :=
  decide ((p.x - q.x) ^ 2 + (p.y - q.y) ^ 2 ≤ t ^ 2)

/-- `DifferenceItem._clamp_center_to_scene` (graphics.py lines 1101-1118);
`none` models the item having no scene, in which case the center passes
through unchanged. -/
def clampCenterToScene (s : MState) (cxL cyL a0 b0 : ℚ) (sc : Option Scene) :
    ℚ × ℚ :=
  match sc with
  | none => (cxL, cyL)
  | some r =>
    let cxS := s.data.x + cxL
    let cyS := s.data.y + cyL
    let a := max 1 a0
    let b := max 1 b0
    let cxS2 := min (max (r.left + a) cxS) (r.right - a)
    let cyS2 := min (max (r.top + b) cyS) (r.bottom - b)
    (cxS2 - s.data.x, cyS2 - s.data.y)

/-- `DifferenceItem._current_click_local` (graphics.py lines 289-322):
fallback to the rectangle-derived region when the click data is absent or
invalid, otherwise the stored absolute values converted to local
coordinates, axes floored at 1, center clamped to the scene. -/
def currentClickLocal (s : MState) (sc : Option Scene) :
    Pt × ℚ × ℚ × String :=
  let w := max MIN_RECT_SIZE s.data.width
  let h := max MIN_RECT_SIZE s.data.height
  if s.data.ccx < 0 ∨ s.data.ccy < 0 ∨ s.data.ca ≤ 0 ∨ s.data.cb ≤ 0 then
    if s.data.cshape = "rect" then
      (⟨w / 2, h / 2⟩, w / 2, h / 2, s.data.cshape)
    else
      (⟨w / 2, h / 2⟩, min w h / 2, min w h / 2, "ellipse")
  else
    let a := max 1 s.data.ca
    let b := max 1 s.data.cb
    let c := clampCenterToScene s (s.data.ccx - s.data.x) (s.data.ccy - s.data.y) a b sc
    (⟨c.1, c.2⟩, a, b, s.data.cshape)

/-- The eight click-region handle codes. -/
inductive HCode
  | TL
  | TR
  | BR
  | BL
  | L
  | R
  | T
  | B
deriving DecidableEq, Repr

/-- `DifferenceItem._click_handles` (graphics.py lines 325-345). -/
def clickHandles (c : Pt) (a b : ℚ) : HCode → Pt
  | HCode.TL => ⟨c.x - a, c.y - b⟩
  | HCode.TR => ⟨c.x + a, c.y - b⟩
  | HCode.BR => ⟨c.x + a, c.y + b⟩
  | HCode.BL => ⟨c.x - a, c.y + b⟩
  | HCode.L => ⟨c.x - a, c.y⟩
  | HCode.R => ⟨c.x + a, c.y⟩
  | HCode.T => ⟨c.x, c.y - b⟩
  | HCode.B => ⟨c.x, c.y + b⟩

/-- `DifferenceItem._hit_click_handle` (graphics.py lines 1041-1054): gated
only on `_show_click`, then the edge handles `L,R,T,B` are tested with the
wide pick radius and the corner handles `TL,TR,BR,BL` with the narrower one,
first hit winning.  `pickE`/`pickC` stand for `_scene_pick_radius(16.0)` and
`_scene_pick_radius(12.0)`. -/
def hitClickHandle (s : MState) (showClick : Bool) (sc : Option Scene)
    (pickE pickC : ℚ) (pos : Pt) : Option HCode :=
  if showClick = false then none
  else
    let q := currentClickLocal s sc
    let c := q.1
    let a := q.2.1
    let b := q.2.2.1
    if distLe pos (clickHandles c a b HCode.L) pickE then some HCode.L
    else if distLe pos (clickHandles c a b HCode.R) pickE then some HCode.R
    else if distLe pos (clickHandles c a b HCode.T) pickE then some HCode.T
    else if distLe pos (clickHandles c a b HCode.B) pickE then some HCode.B
    else if distLe pos (clickHandles c a b HCode.TL) pickC then some HCode.TL
    else if distLe pos (clickHandles c a b HCode.TR) pickC then some HCode.TR
    else if distLe pos (clickHandles c a b HCode.BR) pickC then some HCode.BR
    else if distLe pos (clickHandles c a b HCode.BL) pickC then some HCode.BL
    else none

/-- `DifferenceItem._hit_click_inside` (graphics.py lines 1056-1063); the
float literal `1e-6` is embedded as the rational `1/1000000` and the ellipse
test is cleared of denominators. -/
def hitClickInside (s : MState) (showClick : Bool) (sc : Option Scene)
    (pos : Pt) : Bool :=
  if showClick = false then false
  else
    let q := currentClickLocal s sc
    let c := q.1
    let a := q.2.1
    let b := q.2.2.1
    let shape := q.2.2.2
    let dx := pos.x - c.x
    let dy := pos.y - c.y
    if shape = "rect" then decide (|dx| ≤ a ∧ |dy| ≤ b)
    else
      decide (dx ^ 2 * (b ^ 2 + 1 / 1000000) + dy ^ 2 * (a ^ 2 + 1 / 1000000)
        ≤ (a ^ 2 + 1 / 1000000) * (b ^ 2 + 1 / 1000000))

/-- `DifferenceItem._hit_corner` (graphics.py lines 1009-1014) on the local
rectangle `(0,0,rw,rh)` with `CORNER_THRESH = 12`. -/
def hitCorner (rw rh : ℚ) (pos : Pt) : ℤ :=
  if distLe pos ⟨0, 0⟩ 12 then 0
  else if distLe pos ⟨rw, 0⟩ 12 then 1
  else if distLe pos ⟨rw, rh⟩ 12 then 2
  else if distLe pos ⟨0, rh⟩ 12 then 3
  else -1

/-- `DifferenceItem._hit_edge` (graphics.py lines 1016-1024) with
`EDGE_THRESH = 8`. -/
def hitEdge (rw rh : ℚ) (pos : Pt) : Option EdgeCode :=
  if 0 ≤ pos.y ∧ pos.y ≤ rh ∧ |pos.x| ≤ 8 then some EdgeCode.L
  else if 0 ≤ pos.y ∧ pos.y ≤ rh ∧ |pos.x - rw| ≤ 8 then some EdgeCode.R
  else if 0 ≤ pos.x ∧ pos.x ≤ rw ∧ |pos.y| ≤ 8 then some EdgeCode.T
  else if 0 ≤ pos.x ∧ pos.x ≤ rw ∧ |pos.y - rh| ≤ 8 then some EdgeCode.B
  else none

/-- The drag modes (graphics.py lines 187-189). -/
inductive Mode
  | NONE
  | MOVE
  | RESIZE_CORNER
  | RESIZE_EDGE
  | DRAG_CIRCLE
  | CLICK_MOVE
  | CLICK_EDGE
  | CLICK_CORNER
deriving DecidableEq, Repr

/-- The mode selected by `DifferenceItem.mousePressEvent` (graphics.py lines
693-763).  `hitCircleB` abstracts `_hit_circle(e.pos())`, which depends on
the marker's rendered bitmap bounding box (an external asset); the source
checks it after the click-region tests and, when it hits while the circle is
hidden, returns with the mode left at `NONE`. -/
def mousePressMode (s : MState) (showClick showCircle : Bool)
    (sc : Option Scene) (pickE pickC : ℚ) (hitCircleB : Bool) (pos : Pt) :
    Mode :=
  let rw := max MIN_RECT_SIZE s.data.width
  let rh := max MIN_RECT_SIZE s.data.height
  match hitClickHandle s showClick sc pickE pickC pos with
  | some c =>
    if c = HCode.L ∨ c = HCode.R ∨ c = HCode.T ∨ c = HCode.B then
      Mode.CLICK_EDGE
    else Mode.CLICK_CORNER
  | none =>
    if hitClickInside s showClick sc pos then Mode.CLICK_MOVE
    else if hitCircleB then
      if showCircle = false then Mode.NONE else Mode.DRAG_CIRCLE
    else if 0 ≤ hitCorner rw rh pos then Mode.RESIZE_CORNER
    else
      match hitEdge rw rh pos with
      | some _ => Mode.RESIZE_EDGE
      | none => Mode.MOVE

/-! ### Concrete sample data used by witnesses and counterexamples -/

/-- A concrete `Difference` record. -/
def dSample : Difference :=
  { id := "d1", name := "n", sectionTag := "up", category := "c", label := "l",
    enabled := true, visible := true, x := 0, y := 0, width := 110, height := 110 }

/-- The model state wrapping `dSample`. -/
def sSample : MState := { data := dSample }

/-- The scene rectangle of the 1024×1024 canvas (models.py line 11). -/
def sceneCanvas : Scene := ⟨0, 0, 1024, 1024⟩

/-- A `Difference` with a customised, already-normalised click region. -/
def dClick : Difference :=
  { dSample with click_customized := true, ccx := 500, ccy := 500, ca := 1, cb := 1 }

/-- The model state wrapping `dClick`. -/
def sClick : MState := { data := dClick }

/-- A `Difference` whose click shape carries the out-of-range value
`'None'` mentioned in the dataclass comment (models.py line 47). -/
def dNone : Difference := { dSample with cshape := "None" }

/-- The model state wrapping `dNone`. -/
def sNone : MState := { data := dNone }

/-- A 200×200 `Difference` whose click region was never customised. -/
def d200 : Difference := { dSample with width := 200, height := 200 }

/-- The model state wrapping `d200`. -/
def s200 : MState := { data := d200 }

/-! ### Evaluation lemmas for the auto hint-level rule -/

theorem autoAllowed_200 : autoAllowed 200 200 = [53, 59, 65, 71, 76, 81, 85, 90] := by
  norm_num [autoAllowed, RADIUS_LEVELS, min_def, max_def]

theorem autoRadius_eq (w h : ℚ) :
    autoRadius w h = match (autoAllowed w h).getLast? with
      | some r => r
      | none => min (max 1 w) (max 1 h) / 2 := rfl

theorem autoRadius_200 : autoRadius 200 200 = 90 := by
  rw [autoRadius_eq, autoAllowed_200]
  rfl

theorem autoLevel_200 : autoLevel 200 200 = 8 := by
  show (if autoAllowed 200 200 = [] then 1 else (autoAllowed 200 200).length) = 8
  rw [autoAllowed_200, if_neg (by simp)]
  rfl

/-! ### Bookkeeping lemmas about the model mutators -/

theorem setRect_noop (s : MState) :
    setRect s s.data.x s.data.y s.data.width s.data.height false = (s, []) := by
  unfold setRect
  dsimp only
  split_ifs with h1 h2
  · rfl
  · rfl
  · exact absurd ⟨⟨rfl, rfl, rfl, rfl⟩, rfl⟩ h2

theorem setCircle_noop (s : MState) :
    setCircle s s.data.cx s.data.cy = (s, []) := by
  unfold setCircle
  dsimp only
  split_ifs with h1 h2
  · rfl
  · rfl
  · exact absurd ⟨rfl, rfl⟩ h2

theorem setClickCenter_noop (s : MState) :
    setClickCenter s s.data.ccx s.data.ccy = (s, []) := by
  unfold setClickCenter
  dsimp only
  split_ifs with h1 h2
  · rfl
  · rfl
  · exact absurd ⟨rfl, rfl⟩ h2

theorem setClickAxes_noop (s : MState) (ha : 1 ≤ s.data.ca) (hb : 1 ≤ s.data.cb) :
    setClickAxes s s.data.ca s.data.cb = (s, []) := by
  unfold setClickAxes
  dsimp only
  rw [max_eq_right ha, max_eq_right hb]
  split_ifs with h1 h2
  · rfl
  · rfl
  · exact absurd ⟨rfl, rfl⟩ h2

theorem setClickShape_noop (s : MState)
    (h : s.data.cshape = "rect" ∨ s.data.cshape = "ellipse") :
    setClickShape s s.data.cshape = (s, []) := by
  unfold setClickShape
  dsimp only
  rcases h with h | h <;>
    · rw [h]
      split_ifs with h1 h2
      · rfl
      · rfl
      · exact absurd (by decide) h2

theorem setRect_second (s : MState) (x y w h : ℚ) :
    setRect (setRect s x y w h false).1 x y w h false =
      ((setRect s x y w h false).1, []) := by
  by_cases hu : s.updating = true
  · have h1 : setRect s x y w h false = (s, []) := by
      unfold setRect; rw [if_pos ⟨hu, rfl⟩]
    rw [h1]
    show setRect s x y w h false = (s, [])
    rw [h1]
  · by_cases hc : x = s.data.x ∧ y = s.data.y ∧ w = s.data.width ∧ h = s.data.height
    · have h1 : setRect s x y w h false = (s, []) := by
        unfold setRect
        rw [if_neg (fun hk => hu hk.1)]
        dsimp only
        rw [if_pos ⟨hc, rfl⟩]
      rw [h1]
      show setRect s x y w h false = (s, [])
      rw [h1]
    · have h1 : (setRect s x y w h false).1 =
          { s with data := { s.data with x := x, y := y, width := w, height := h } } := by
        unfold setRect
        rw [if_neg (fun hk => hu hk.1)]
        dsimp only
        rw [if_neg (fun hk => hc hk.1)]
      rw [h1]
      unfold setRect
      rw [if_neg (fun hk => hu hk.1)]
      dsimp only
      rw [if_pos ⟨⟨rfl, rfl, rfl, rfl⟩, rfl⟩]

theorem setCircle_second (s : MState) (cx cy : ℚ) :
    setCircle (setCircle s cx cy).1 cx cy = ((setCircle s cx cy).1, []) := by
  by_cases hu : s.updating = true
  · have h1 : setCircle s cx cy = (s, []) := by
      unfold setCircle; rw [if_pos hu]
    rw [h1]
    show setCircle s cx cy = (s, [])
    rw [h1]
  · by_cases hc : cx = s.data.cx ∧ cy = s.data.cy
    · have h1 : setCircle s cx cy = (s, []) := by
        unfold setCircle
        rw [if_neg hu]
        dsimp only
        rw [if_pos hc]
      rw [h1]
      show setCircle s cx cy = (s, [])
      rw [h1]
    · have h1 : (setCircle s cx cy).1 =
          { s with data := { s.data with cx := cx, cy := cy } } := by
        unfold setCircle
        rw [if_neg hu]
        dsimp only
        rw [if_neg hc]
      rw [h1]
      unfold setCircle
      rw [if_neg hu]
      dsimp only
      rw [if_pos ⟨rfl, rfl⟩]

theorem setClickCenter_second (s : MState) (cx cy : ℚ) :
    setClickCenter (setClickCenter s cx cy).1 cx cy =
      ((setClickCenter s cx cy).1, []) := by
  by_cases hu : s.updating = true
  · have h1 : setClickCenter s cx cy = (s, []) := by
      unfold setClickCenter; rw [if_pos hu]
    rw [h1]
    show setClickCenter s cx cy = (s, [])
    rw [h1]
  · by_cases hc : cx = s.data.ccx ∧ cy = s.data.ccy
    · have h1 : setClickCenter s cx cy = (s, []) := by
        unfold setClickCenter
        rw [if_neg hu]
        dsimp only
        rw [if_pos hc]
      rw [h1]
      show setClickCenter s cx cy = (s, [])
      rw [h1]
    · have h1 : (setClickCenter s cx cy).1 =
          { s with data :=
            { s.data with ccx := cx, ccy := cy, click_customized := true } } := by
        unfold setClickCenter
        rw [if_neg hu]
        dsimp only
        rw [if_neg hc]
      rw [h1]
      unfold setClickCenter
      rw [if_neg hu]
      dsimp only
      rw [if_pos ⟨rfl, rfl⟩]

theorem setClickAxes_second (s : MState) (a b : ℚ) :
    setClickAxes (setClickAxes s a b).1 a b = ((setClickAxes s a b).1, []) := by
  by_cases hu : s.updating = true
  · have h1 : setClickAxes s a b = (s, []) := by
      unfold setClickAxes; rw [if_pos hu]
    rw [h1]
    show setClickAxes s a b = (s, [])
    rw [h1]
  · by_cases hc : max 1 a = s.data.ca ∧ max 1 b = s.data.cb
    · have h1 : setClickAxes s a b = (s, []) := by
        unfold setClickAxes
        rw [if_neg hu]
        dsimp only
        rw [if_pos hc]
      rw [h1]
      show setClickAxes s a b = (s, [])
      rw [h1]
    · have h1 : (setClickAxes s a b).1 =
          { s with data :=
            { s.data with ca := max 1 a, cb := max 1 b, click_customized := true } } := by
        unfold setClickAxes
        rw [if_neg hu]
        dsimp only
        rw [if_neg hc]
      rw [h1]
      unfold setClickAxes
      rw [if_neg hu]
      dsimp only
      rw [if_pos ⟨rfl, rfl⟩]

theorem setClickShape_second (s : MState) (sh : String) :
    setClickShape (setClickShape s sh).1 sh = ((setClickShape s sh).1, []) := by
  by_cases hu : s.updating = true
  · have h1 : setClickShape s sh = (s, []) := by
      unfold setClickShape; rw [if_pos hu]
    rw [h1]
    show setClickShape s sh = (s, [])
    rw [h1]
  · by_cases hc : normalizeShape sh = s.data.cshape
    · have h1 : setClickShape s sh = (s, []) := by
        unfold setClickShape
        rw [if_neg hu]
        dsimp only
        rw [if_pos hc]
      rw [h1]
      show setClickShape s sh = (s, [])
      rw [h1]
    · have h1 : (setClickShape s sh).1 =
          { s with data :=
            { s.data with cshape := normalizeShape sh, click_customized := true } } := by
        unfold setClickShape
        rw [if_neg hu]
        dsimp only
        rw [if_neg hc]
      rw [h1]
      unfold setClickShape
      rw [if_neg hu]
      dsimp only
      rw [if_pos rfl]

/-- `normalizeShape` always lands in `{"rect", "ellipse"}`. -/
theorem normalizeShape_valid (sh : String) :
    normalizeShape sh = "rect" ∨ normalizeShape sh = "ellipse" := by
  unfold normalizeShape
  dsimp only
  split_ifs with h0 h1 h2 <;> first | assumption | exact Or.inl rfl

/-- Repeating stored axes that are below 1 renormalises them: the state
changes and `anyChanged` is emitted. -/
theorem setClickAxes_renorm (s : MState) (hu : s.updating = false)
    (h : s.data.ca < 1 ∨ s.data.cb < 1) :
    (setClickAxes s s.data.ca s.data.cb).2 = [Sig.anyChanged] ∧
    (setClickAxes s s.data.ca s.data.cb).1 ≠ s := by
  have hcond : ¬(max 1 s.data.ca = s.data.ca ∧ max 1 s.data.cb = s.data.cb) := by
    rintro ⟨h1, h2⟩
    have ha : (1 : ℚ) ≤ s.data.ca := h1 ▸ le_max_left 1 s.data.ca
    have hb : (1 : ℚ) ≤ s.data.cb := h2 ▸ le_max_left 1 s.data.cb
    rcases h with h | h <;> linarith
  have hrw : setClickAxes s s.data.ca s.data.cb =
      ({ s with data := { s.data with ca := max 1 s.data.ca, cb := max 1 s.data.cb, click_customized := true } },
        [Sig.anyChanged]) := by
    unfold setClickAxes
    rw [if_neg (by simp [hu])]
    dsimp only
    rw [if_neg hcond]
  rw [hrw]
  refine ⟨rfl, fun he => ?_⟩
  have hca := congrArg (fun t => t.data.ca) he
  have hcb := congrArg (fun t => t.data.cb) he
  dsimp only at hca hcb
  exact hcond ⟨hca, hcb⟩

/-- Repeating a stored shape outside `{"rect", "ellipse"}` renormalises it:
the state changes and `anyChanged` is emitted. -/
theorem setClickShape_renorm (s : MState) (hu : s.updating = false)
    (h1 : s.data.cshape ≠ "rect") (h2 : s.data.cshape ≠ "ellipse") :
    (setClickShape s s.data.cshape).2 = [Sig.anyChanged] ∧
    (setClickShape s s.data.cshape).1 ≠ s := by
  have hns : normalizeShape s.data.cshape ≠ s.data.cshape := by
    intro he
    rcases normalizeShape_valid s.data.cshape with hv | hv
    · exact h1 (he.symm.trans hv)
    · exact h2 (he.symm.trans hv)
  have hrw : setClickShape s s.data.cshape =
      ({ s with data := { s.data with cshape := normalizeShape s.data.cshape, click_customized := true } },
        [Sig.anyChanged]) := by
    unfold setClickShape
    rw [if_neg (by simp [hu])]
    dsimp only
    rw [if_neg hns]
  rw [hrw]
  refine ⟨rfl, fun he => ?_⟩
  have hcs := congrArg (fun t => t.data.cshape) he
  dsimp only at hcs
  exact hns hcs

theorem setClickCenter_preserves_axes (s : MState) (cx cy : ℚ) :
    (setClickCenter s cx cy).1.data.ca = s.data.ca ∧
    (setClickCenter s cx cy).1.data.cb = s.data.cb := by
  unfold setClickCenter
  dsimp only
  split_ifs <;> exact ⟨rfl, rfl⟩

theorem setClickCenter_stores (s : MState) (cx cy : ℚ) (hu : s.updating = false) :
    (setClickCenter s cx cy).1.data.ccx = cx ∧
    (setClickCenter s cx cy).1.data.ccy = cy := by
  unfold setClickCenter
  dsimp only
  split_ifs with h1 h2
  · rw [hu] at h1; cases h1
  · exact ⟨h2.1.symm, h2.2.symm⟩
  · exact ⟨rfl, rfl⟩

theorem setClickAxes_preserves_center (s : MState) (a b : ℚ) :
    (setClickAxes s a b).1.data.ccx = s.data.ccx ∧
    (setClickAxes s a b).1.data.ccy = s.data.ccy := by
  unfold setClickAxes
  dsimp only
  split_ifs <;> exact ⟨rfl, rfl⟩

/-- The length of a `≤`-threshold filter grows with the threshold. -/
theorem filter_le_length_mono (L : List ℚ) (t1 t2 : ℚ) (h : t1 ≤ t2) :
    (L.filter fun v => decide (v ≤ t1)).length ≤
      (L.filter fun v => decide (v ≤ t2)).length := by
  induction L with
  | nil => simp
  | cons a as ih =>
    by_cases ha : a ≤ t1
    · have ha2 : a ≤ t2 := le_trans ha h
      simpa [List.filter_cons, ha, ha2] using ih
    · by_cases hb : a ≤ t2
      · simp only [List.filter_cons]
        rw [if_neg (by simpa using ha), if_pos (by simpa using hb),
          List.length_cons]
        exact le_trans ih (Nat.le_succ _)
      · simpa [List.filter_cons, ha, hb] using ih

/-! ### Per-axis facts about `_clamp_scene_rect` -/

theorem MIN_RECT_SIZE_pos : (0 : ℚ) < MIN_RECT_SIZE := by
  norm_num [MIN_RECT_SIZE]

/-- When both endpoints of the (already ordered) span lie inside the scene
interval and the span is at least `MIN_RECT_SIZE` long, the axis clamp is the
identity. -/
theorem clampAxis_anchor (lo hi a c : ℚ) (h1 : lo ≤ a) (h2 : a ≤ hi)
    (h3 : lo ≤ c) (h4 : c ≤ hi)
    (hd : MIN_RECT_SIZE ≤ max c a - min c a) :
    clampAxis lo hi (min c a) (max c a) = (min c a, max c a) := by
  unfold clampAxis
  dsimp only
  rw [min_eq_left min_le_max, max_eq_right min_le_max,
    max_eq_right (le_min h3 h1), min_eq_right (max_le h4 h2),
    max_eq_right hd,
    show min c a + (max c a - min c a) = max c a by ring,
    min_eq_right (max_le h4 h2)]

/-- A fixed span inside the scene of length at least `MIN_RECT_SIZE` passes
through the axis clamp unchanged. -/
theorem clampAxis_fixed (lo hi t b : ℚ) (hlo : lo ≤ t) (hhi : b ≤ hi)
    (hm : t + MIN_RECT_SIZE ≤ b) :
    clampAxis lo hi t b = (t, b) := by
  have htb : t ≤ b := by
    have := MIN_RECT_SIZE_pos
    linarith
  unfold clampAxis
  dsimp only
  rw [min_eq_left htb, max_eq_right htb, max_eq_right hlo, min_eq_right hhi,
    max_eq_right (by linarith : MIN_RECT_SIZE ≤ b - t),
    show t + (b - t) = b by ring, min_eq_right hhi]

/-- Dragging the low side (`'L'`/`'T'` codes): the high end of the span is
preserved by the axis clamp, and the clamped low end stays at least
`MIN_RECT_SIZE` below it. -/
theorem clampAxis_moveLo (lo hi b v : ℚ) (hhi : b ≤ hi)
    (hlo : lo + MIN_RECT_SIZE ≤ b) :
    (clampAxis lo hi (min v (b - MIN_RECT_SIZE)) b).1 ≤ b - MIN_RECT_SIZE ∧
    (clampAxis lo hi (min v (b - MIN_RECT_SIZE)) b).2 = b := by
  have hminb : min v (b - MIN_RECT_SIZE) ≤ b := by
    have := MIN_RECT_SIZE_pos
    have := min_le_right v (b - MIN_RECT_SIZE)
    linarith
  have ht2 : max lo (min v (b - MIN_RECT_SIZE)) ≤ b - MIN_RECT_SIZE :=
    max_le (by linarith) (min_le_right _ _)
  unfold clampAxis
  dsimp only
  rw [min_eq_left hminb, max_eq_right hminb, min_eq_right hhi]
  refine ⟨ht2, ?_⟩
  rw [max_eq_right (by linarith : MIN_RECT_SIZE ≤ b - max lo (min v (b - MIN_RECT_SIZE))),
    show max lo (min v (b - MIN_RECT_SIZE)) +
        (b - max lo (min v (b - MIN_RECT_SIZE))) = b by ring,
    min_eq_right hhi]

/-- Dragging the high side (`'R'`/`'B'` codes): the low end of the span is
preserved by the axis clamp, and the clamped high end stays at least
`MIN_RECT_SIZE` above it. -/
theorem clampAxis_moveHi (lo hi t v : ℚ) (hlo : lo ≤ t)
    (hhi : t + MIN_RECT_SIZE ≤ hi) :
    (clampAxis lo hi t (max v (t + MIN_RECT_SIZE))).1 = t ∧
    t + MIN_RECT_SIZE ≤ (clampAxis lo hi t (max v (t + MIN_RECT_SIZE))).2 := by
  have htb : t ≤ max v (t + MIN_RECT_SIZE) := by
    have := MIN_RECT_SIZE_pos
    have := le_max_right v (t + MIN_RECT_SIZE)
    linarith
  have hb2 : t + MIN_RECT_SIZE ≤ min hi (max v (t + MIN_RECT_SIZE)) :=
    le_min hhi (le_max_right _ _)
  unfold clampAxis
  dsimp only
  rw [min_eq_left htb, max_eq_right htb, max_eq_right hlo]
  refine ⟨rfl, ?_⟩
  rw [max_eq_right (by linarith : MIN_RECT_SIZE ≤
      min hi (max v (t + MIN_RECT_SIZE)) - t),
    show t + (min hi (max v (t + MIN_RECT_SIZE)) - t) =
      min hi (max v (t + MIN_RECT_SIZE)) by ring,
    min_eq_right (min_le_left hi (max v (t + MIN_RECT_SIZE)))]
  exact hb2

/-- The qualifying-radius count is monotone in `min w h`. -/
theorem autoAllowed_length_mono (w1 h1 w2 h2 : ℚ)
    (h : min w1 h1 ≤ min w2 h2) :
    (autoAllowed w1 h1).length ≤ (autoAllowed w2 h2).length := by
  unfold autoAllowed
  dsimp only
  apply filter_le_length_mono
  have hsize : min (max 1 w1) (max 1 h1) ≤ min (max 1 w2) (max 1 h2) := by
    rw [← max_min_distrib_left, ← max_min_distrib_left]
    exact max_le_max le_rfl h
  linarith

/-! ### Claims -/

/-- Claim C1, as stated, is false: `DifferenceModel.set_rect` performs no
normalisation at all.  Calling `set_rect(0, 0, 1, 1)` on a model stores
width 1, which is below `MIN_RECT_SIZE = 110` (and no absolute value or
canvas clamp is applied either). -/
theorem c1_counterexample :
    (setRect sSample 0 0 1 1 false).1.data.width = 1 ∧
      ¬ MIN_RECT_SIZE ≤ (setRect sSample 0 0 1 1 false).1.data.width := by
  decide

/-- Claim C1 (amended): `set_rect` stores its four arguments verbatim —
no absolute value, no `MIN_SIZE` clamp and no canvas clamp happen inside the
model; those floors/clamps are applied by the view's resize handlers before
calling `set_rect`.  Whenever the call is not swallowed by the batch flag,
the stored rectangle equals the inputs exactly. -/
theorem c1_amended_setRect_stores_verbatim (s : MState) (x y w h : ℚ)
    (hu : s.updating = false) (force : Bool) :
    (setRect s x y w h force).1.data.x = x ∧
    (setRect s x y w h force).1.data.y = y ∧
    (setRect s x y w h force).1.data.width = w ∧
    (setRect s x y w h force).1.data.height = h := by
  unfold setRect
  dsimp only
  split_ifs with h1 h2
  · rw [hu] at h1
    exact absurd h1.1 (by simp)
  · obtain ⟨⟨hx, hy, hw, hh⟩, _⟩ := h2
    exact ⟨hx.symm, hy.symm, hw.symm, hh.symm⟩
  · exact ⟨rfl, rfl, rfl, rfl⟩

/-- Witness for the amended C1 theorem at a concrete input. -/
theorem c1_amended_witness :
    (setRect sSample 5 6 200 300 false).1.data.x = 5 ∧
    (setRect sSample 5 6 200 300 false).1.data.y = 6 ∧
    (setRect sSample 5 6 200 300 false).1.data.width = 200 ∧
    (setRect sSample 5 6 200 300 false).1.data.height = 300 :=
  c1_amended_setRect_stores_verbatim sSample 5 6 200 300 rfl false

/-- Claim C2 is right about the intent but the code drops it:
`DifferenceModel`'s own docstring says it maintains `hint_level` on
`set_rect`, yet `set_rect` never touches `hint_level`.  First conjunct: no
`set_rect` call ever changes `hint_level`.  Remaining conjuncts: at the
failing input (rect set to 200×200 on a model whose level is 1) the level
stays 1, while the auto-selection rule would give level 8. -/
theorem c2_setRect_never_recomputes_hint_level :
    (∀ (s : MState) (x y w h : ℚ) (force : Bool),
        (setRect s x y w h force).1.data.hint_level = s.data.hint_level) ∧
    (setRect sSample 0 0 200 200 false).1.data.hint_level = 1 ∧
    autoLevel 200 200 = 8 := by
  refine ⟨fun s x y w h force => ?_, by decide, autoLevel_200⟩
  unfold setRect
  dsimp only
  split_ifs <;> rfl

/-- Claim C3, as stated, is false on the code: for a 200×200 rectangle the
threshold is `100 - 10 = 90` and `90` itself qualifies (`lvl <= max_half-10`
is non-strict), so the selected radius is 90, not 85. -/
theorem c3_counterexample :
    autoRadius 200 200 = 90 ∧ autoRadius 200 200 ≠ 85 := by
  rw [autoRadius_200]
  norm_num

/-- Claim C3 (amended): for a 200×200 rectangle the auto selection picks
radius 90 — the largest table entry `≤ 90` — and reports 1-based level 8
(the 8 qualifying entries `53..90`). -/
theorem c3_amended_scenarioA :
    autoRadius 200 200 = 90 ∧ autoLevel 200 200 = 8 :=
  ⟨autoRadius_200, autoLevel_200⟩

/-- Claim C4, as stated, is false: when the pointer comes within
`MIN_RECT_SIZE` of the anchor, the minimum-size floor of `_clamp_scene_rect`
pushes the bottom-right edges outward past the anchor.  Dragging the
top-left corner (anchor = press-time bottom-right `(300,300)`) to pointer
`(295,295)` yields rectangle `(295,295,110,110)`, whose bottom-right corner
`(405,405)` — the corner opposite the dragged one — is no longer at its
press-time position `(300,300)`. -/
theorem c4_counterexample :
    resizeCornerRect ⟨300, 300⟩ ⟨295, 295⟩ sceneCanvas = ⟨295, 295, 110, 110⟩ ∧
    ¬((resizeCornerRect ⟨300, 300⟩ ⟨295, 295⟩ sceneCanvas).x +
        (resizeCornerRect ⟨300, 300⟩ ⟨295, 295⟩ sceneCanvas).w = 300 ∧
      (resizeCornerRect ⟨300, 300⟩ ⟨295, 295⟩ sceneCanvas).y +
        (resizeCornerRect ⟨300, 300⟩ ⟨295, 295⟩ sceneCanvas).h = 300) := by
  have hr : resizeCornerRect ⟨300, 300⟩ ⟨295, 295⟩ sceneCanvas =
      ⟨295, 295, 110, 110⟩ := by
    norm_num [resizeCornerRect, clampSceneRect, clampAxis, sceneCanvas,
      MIN_RECT_SIZE, RectQ.mk.injEq, min_def, max_def]
  refine ⟨hr, ?_⟩
  rw [hr]
  norm_num

/-- Claim C4 (amended): during a corner-resize, the corner opposite the
dragged corner keeps its press-time absolute position provided the pointer
stays inside the canvas and at least `MIN_RECT_SIZE` away from the anchor
along both axes (otherwise the minimum-size floor moves it); during an
edge-resize the three sides other than the dragged side keep their
press-time absolute positions for **every** pointer position — `cur` is
unconstrained in the four edge conjuncts — given a press-time rectangle
inside the canvas with width and height at least `MIN_RECT_SIZE`. -/
theorem c4_amended_resize_anchors (sc : Scene) (anchor cur tl0 br0 : Pt)
    (htlx : sc.left ≤ tl0.x) (htly : sc.top ≤ tl0.y)
    (hbrx : br0.x ≤ sc.right) (hbry : br0.y ≤ sc.bottom)
    (hw0 : tl0.x + MIN_RECT_SIZE ≤ br0.x)
    (hh0 : tl0.y + MIN_RECT_SIZE ≤ br0.y) :
    (sc.left ≤ anchor.x → anchor.x ≤ sc.right →
     sc.top ≤ anchor.y → anchor.y ≤ sc.bottom →
     sc.left ≤ cur.x → cur.x ≤ sc.right →
     sc.top ≤ cur.y → cur.y ≤ sc.bottom →
     MIN_RECT_SIZE ≤ |cur.x - anchor.x| →
     MIN_RECT_SIZE ≤ |cur.y - anchor.y| →
     ((resizeCornerRect anchor cur sc).x = anchor.x ∨
       (resizeCornerRect anchor cur sc).x + (resizeCornerRect anchor cur sc).w
         = anchor.x) ∧
     ((resizeCornerRect anchor cur sc).y = anchor.y ∨
       (resizeCornerRect anchor cur sc).y + (resizeCornerRect anchor cur sc).h
         = anchor.y)) ∧
    ((resizeEdgeRect EdgeCode.L tl0 br0 cur sc).y = tl0.y ∧
     (resizeEdgeRect EdgeCode.L tl0 br0 cur sc).x +
       (resizeEdgeRect EdgeCode.L tl0 br0 cur sc).w = br0.x ∧
     (resizeEdgeRect EdgeCode.L tl0 br0 cur sc).y +
       (resizeEdgeRect EdgeCode.L tl0 br0 cur sc).h = br0.y) ∧
    ((resizeEdgeRect EdgeCode.R tl0 br0 cur sc).x = tl0.x ∧
     (resizeEdgeRect EdgeCode.R tl0 br0 cur sc).y = tl0.y ∧
     (resizeEdgeRect EdgeCode.R tl0 br0 cur sc).y +
       (resizeEdgeRect EdgeCode.R tl0 br0 cur sc).h = br0.y) ∧
    ((resizeEdgeRect EdgeCode.T tl0 br0 cur sc).x = tl0.x ∧
     (resizeEdgeRect EdgeCode.T tl0 br0 cur sc).x +
       (resizeEdgeRect EdgeCode.T tl0 br0 cur sc).w = br0.x ∧
     (resizeEdgeRect EdgeCode.T tl0 br0 cur sc).y +
       (resizeEdgeRect EdgeCode.T tl0 br0 cur sc).h = br0.y) ∧
    ((resizeEdgeRect EdgeCode.B tl0 br0 cur sc).x = tl0.x ∧
     (resizeEdgeRect EdgeCode.B tl0 br0 cur sc).y = tl0.y ∧
     (resizeEdgeRect EdgeCode.B tl0 br0 cur sc).x +
       (resizeEdgeRect EdgeCode.B tl0 br0 cur sc).w = br0.x) := by
  have hxfix := clampAxis_fixed sc.left sc.right tl0.x br0.x htlx hbrx hw0
  have hyfix := clampAxis_fixed sc.top sc.bottom tl0.y br0.y htly hbry hh0
  have hxlo := clampAxis_moveLo sc.left sc.right br0.x cur.x hbrx (by linarith)
  have hylo := clampAxis_moveLo sc.top sc.bottom br0.y cur.y hbry (by linarith)
  have hxhi := clampAxis_moveHi sc.left sc.right tl0.x cur.x htlx (by linarith)
  have hyhi := clampAxis_moveHi sc.top sc.bottom tl0.y cur.y htly (by linarith)
  refine ⟨?_, ?_, ?_, ?_, ?_⟩
  · intro hax1 hax2 hay1 hay2 hcx1 hcx2 hcy1 hcy2 hdx hdy
    have hdx' : MIN_RECT_SIZE ≤ max cur.x anchor.x - min cur.x anchor.x := by
      rw [max_sub_min_eq_abs, abs_sub_comm]
      exact hdx
    have hdy' : MIN_RECT_SIZE ≤ max cur.y anchor.y - min cur.y anchor.y := by
      rw [max_sub_min_eq_abs, abs_sub_comm]
      exact hdy
    have hx := clampAxis_anchor sc.left sc.right anchor.x cur.x hax1 hax2 hcx1 hcx2 hdx'
    have hy := clampAxis_anchor sc.top sc.bottom anchor.y cur.y hay1 hay2 hcy1 hcy2 hdy'
    have hcorner : resizeCornerRect anchor cur sc =
        ⟨min cur.x anchor.x, min cur.y anchor.y,
          max cur.x anchor.x - min cur.x anchor.x,
          max cur.y anchor.y - min cur.y anchor.y⟩ := by
      unfold resizeCornerRect clampSceneRect
      dsimp only
      rw [hx, hy]
      dsimp only
      rw [max_eq_right hdx', max_eq_right hdy']
    rw [hcorner]
    dsimp only
    constructor
    · rcases le_total cur.x anchor.x with hc | hc
      · exact Or.inr (by rw [max_eq_right hc]; ring)
      · exact Or.inl (min_eq_right hc)
    · rcases le_total cur.y anchor.y with hc | hc
      · exact Or.inr (by rw [max_eq_right hc]; ring)
      · exact Or.inl (min_eq_right hc)
  · unfold resizeEdgeRect clampSceneRect
    dsimp only
    rw [hyfix, hxlo.2]
    dsimp only
    refine ⟨rfl, ?_, ?_⟩
    · rw [max_eq_right (by linarith [hxlo.1] :
        MIN_RECT_SIZE ≤ br0.x -
          (clampAxis sc.left sc.right (min cur.x (br0.x - MIN_RECT_SIZE)) br0.x).1)]
      ring
    · rw [max_eq_right (by linarith : MIN_RECT_SIZE ≤ br0.y - tl0.y)]
      ring
  · unfold resizeEdgeRect clampSceneRect
    dsimp only
    rw [hyfix, hxhi.1]
    dsimp only
    refine ⟨rfl, rfl, ?_⟩
    rw [max_eq_right (by linarith : MIN_RECT_SIZE ≤ br0.y - tl0.y)]
    ring
  · unfold resizeEdgeRect clampSceneRect
    dsimp only
    rw [hxfix, hylo.2]
    dsimp only
    refine ⟨rfl, ?_, ?_⟩
    · rw [max_eq_right (by linarith : MIN_RECT_SIZE ≤ br0.x - tl0.x)]
      ring
    · rw [max_eq_right (by linarith [hylo.1] :
        MIN_RECT_SIZE ≤ br0.y -
          (clampAxis sc.top sc.bottom (min cur.y (br0.y - MIN_RECT_SIZE)) br0.y).1)]
      ring
  · unfold resizeEdgeRect clampSceneRect
    dsimp only
    rw [hxfix, hyhi.1]
    dsimp only
    refine ⟨rfl, rfl, ?_⟩
    rw [max_eq_right (by linarith : MIN_RECT_SIZE ≤ br0.x - tl0.x)]
    ring

/-- Witness for the amended C4 theorem at concrete inputs (anchor at
`(300,300)`, pointer at `(500,520)`, press rect `(100,100)-(300,300)` on the
1024×1024 canvas). -/
theorem c4_amended_witness :
    (((resizeCornerRect ⟨300, 300⟩ ⟨500, 520⟩ sceneCanvas).x = 300 ∨
       (resizeCornerRect ⟨300, 300⟩ ⟨500, 520⟩ sceneCanvas).x +
         (resizeCornerRect ⟨300, 300⟩ ⟨500, 520⟩ sceneCanvas).w = 300) ∧
      ((resizeCornerRect ⟨300, 300⟩ ⟨500, 520⟩ sceneCanvas).y = 300 ∨
       (resizeCornerRect ⟨300, 300⟩ ⟨500, 520⟩ sceneCanvas).y +
         (resizeCornerRect ⟨300, 300⟩ ⟨500, 520⟩ sceneCanvas).h = 300)) ∧
    ((resizeEdgeRect EdgeCode.L ⟨100, 100⟩ ⟨300, 300⟩ ⟨500, 520⟩ sceneCanvas).y = 100 ∧
     (resizeEdgeRect EdgeCode.L ⟨100, 100⟩ ⟨300, 300⟩ ⟨500, 520⟩ sceneCanvas).x +
       (resizeEdgeRect EdgeCode.L ⟨100, 100⟩ ⟨300, 300⟩ ⟨500, 520⟩ sceneCanvas).w = 300 ∧
     (resizeEdgeRect EdgeCode.L ⟨100, 100⟩ ⟨300, 300⟩ ⟨500, 520⟩ sceneCanvas).y +
       (resizeEdgeRect EdgeCode.L ⟨100, 100⟩ ⟨300, 300⟩ ⟨500, 520⟩ sceneCanvas).h = 300) ∧
    ((resizeEdgeRect EdgeCode.R ⟨100, 100⟩ ⟨300, 300⟩ ⟨500, 520⟩ sceneCanvas).x = 100 ∧
     (resizeEdgeRect EdgeCode.R ⟨100, 100⟩ ⟨300, 300⟩ ⟨500, 520⟩ sceneCanvas).y = 100 ∧
     (resizeEdgeRect EdgeCode.R ⟨100, 100⟩ ⟨300, 300⟩ ⟨500, 520⟩ sceneCanvas).y +
       (resizeEdgeRect EdgeCode.R ⟨100, 100⟩ ⟨300, 300⟩ ⟨500, 520⟩ sceneCanvas).h = 300) ∧
    ((resizeEdgeRect EdgeCode.T ⟨100, 100⟩ ⟨300, 300⟩ ⟨500, 520⟩ sceneCanvas).x = 100 ∧
     (resizeEdgeRect EdgeCode.T ⟨100, 100⟩ ⟨300, 300⟩ ⟨500, 520⟩ sceneCanvas).x +
       (resizeEdgeRect EdgeCode.T ⟨100, 100⟩ ⟨300, 300⟩ ⟨500, 520⟩ sceneCanvas).w = 300 ∧
     (resizeEdgeRect EdgeCode.T ⟨100, 100⟩ ⟨300, 300⟩ ⟨500, 520⟩ sceneCanvas).y +
       (resizeEdgeRect EdgeCode.T ⟨100, 100⟩ ⟨300, 300⟩ ⟨500, 520⟩ sceneCanvas).h = 300) ∧
    ((resizeEdgeRect EdgeCode.B ⟨100, 100⟩ ⟨300, 300⟩ ⟨500, 520⟩ sceneCanvas).x = 100 ∧
     (resizeEdgeRect EdgeCode.B ⟨100, 100⟩ ⟨300, 300⟩ ⟨500, 520⟩ sceneCanvas).y = 100 ∧
     (resizeEdgeRect EdgeCode.B ⟨100, 100⟩ ⟨300, 300⟩ ⟨500, 520⟩ sceneCanvas).x +
       (resizeEdgeRect EdgeCode.B ⟨100, 100⟩ ⟨300, 300⟩ ⟨500, 520⟩ sceneCanvas).w = 300) := by
  have h := c4_amended_resize_anchors sceneCanvas ⟨300, 300⟩ ⟨500, 520⟩
    ⟨100, 100⟩ ⟨300, 300⟩
    (by norm_num [sceneCanvas]) (by norm_num [sceneCanvas])
    (by norm_num [sceneCanvas]) (by norm_num [sceneCanvas])
    (by norm_num [sceneCanvas, MIN_RECT_SIZE]) (by norm_num [sceneCanvas, MIN_RECT_SIZE])
  exact ⟨h.1 (by norm_num [sceneCanvas]) (by norm_num [sceneCanvas])
      (by norm_num [sceneCanvas]) (by norm_num [sceneCanvas])
      (by norm_num [sceneCanvas]) (by norm_num [sceneCanvas])
      (by norm_num [sceneCanvas]) (by norm_num [sceneCanvas])
      (by norm_num [MIN_RECT_SIZE]) (by norm_num [MIN_RECT_SIZE]),
    h.2.1, h.2.2.1, h.2.2.2.1, h.2.2.2.2⟩

/-- Claim C5, as stated, is false in one corner: `set_click_axes` normalises
its arguments (`max(1.0, ·)`) before comparing, so on a model whose stored
axes are the initial `(0, 0)` a call with those very stored values rewrites
them to `(1, 1)`, flips `click_customized`, and emits `anyChanged`. -/
theorem c5_counterexample :
    (setClickAxes sSample sSample.data.ca sSample.data.cb).2 = [Sig.anyChanged] ∧
    (setClickAxes sSample sSample.data.ca sSample.data.cb).1 ≠ sSample := by
  decide

/-- Claim C5 (amended): calling a mutator with the currently stored values
is a no-op (no state change, no signal) for `set_rect` (without force),
`set_circle` and `set_click_center` unconditionally, and for
`set_click_axes` / `set_click_shape` whenever the stored values are already
in normalised range (axes ≥ 1; shape `"rect"` or `"ellipse"`) — stored
values outside that range are renormalised: the state changes and
`anyChanged` is emitted.  Moreover, for every setter and any arguments, the
second of two identical calls changes nothing and emits nothing. -/
theorem c5_amended_noop_setters :
    (∀ s : MState, setRect s s.data.x s.data.y s.data.width s.data.height false = (s, [])) ∧
    (∀ s : MState, setCircle s s.data.cx s.data.cy = (s, [])) ∧
    (∀ s : MState, setClickCenter s s.data.ccx s.data.ccy = (s, [])) ∧
    (∀ s : MState, 1 ≤ s.data.ca → 1 ≤ s.data.cb →
      setClickAxes s s.data.ca s.data.cb = (s, [])) ∧
    (∀ s : MState, s.data.cshape = "rect" ∨ s.data.cshape = "ellipse" →
      setClickShape s s.data.cshape = (s, [])) ∧
    (∀ s : MState, s.updating = false → s.data.ca < 1 ∨ s.data.cb < 1 →
      (setClickAxes s s.data.ca s.data.cb).2 = [Sig.anyChanged] ∧
      (setClickAxes s s.data.ca s.data.cb).1 ≠ s) ∧
    (∀ s : MState, s.updating = false → s.data.cshape ≠ "rect" →
      s.data.cshape ≠ "ellipse" →
      (setClickShape s s.data.cshape).2 = [Sig.anyChanged] ∧
      (setClickShape s s.data.cshape).1 ≠ s) ∧
    (∀ (s : MState) (x y w h : ℚ),
      setRect (setRect s x y w h false).1 x y w h false =
        ((setRect s x y w h false).1, [])) ∧
    (∀ (s : MState) (cx cy : ℚ),
      setCircle (setCircle s cx cy).1 cx cy = ((setCircle s cx cy).1, [])) ∧
    (∀ (s : MState) (cx cy : ℚ),
      setClickCenter (setClickCenter s cx cy).1 cx cy =
        ((setClickCenter s cx cy).1, [])) ∧
    (∀ (s : MState) (a b : ℚ),
      setClickAxes (setClickAxes s a b).1 a b = ((setClickAxes s a b).1, [])) ∧
    (∀ (s : MState) (sh : String),
      setClickShape (setClickShape s sh).1 sh = ((setClickShape s sh).1, [])) :=
  ⟨setRect_noop, setCircle_noop, setClickCenter_noop, setClickAxes_noop,
   setClickShape_noop, setClickAxes_renorm, setClickShape_renorm,
   setRect_second, setCircle_second, setClickCenter_second,
   setClickAxes_second, setClickShape_second⟩

/-- Witness for the amended C5 theorem: on a state with normalised stored
axes repeating the stored values is a no-op, while out-of-range stored axes
(`(0,0)`) and an out-of-range stored shape (`'None'`) are renormalised with
one `anyChanged` emission. -/
theorem c5_amended_witness :
    setClickAxes sClick sClick.data.ca sClick.data.cb = (sClick, []) ∧
    setClickShape sClick sClick.data.cshape = (sClick, []) ∧
    ((setClickAxes sSample sSample.data.ca sSample.data.cb).2 = [Sig.anyChanged] ∧
      (setClickAxes sSample sSample.data.ca sSample.data.cb).1 ≠ sSample) ∧
    ((setClickShape sNone sNone.data.cshape).2 = [Sig.anyChanged] ∧
      (setClickShape sNone sNone.data.cshape).1 ≠ sNone) :=
  ⟨c5_amended_noop_setters.2.2.2.1 sClick (by norm_num [sClick, dClick, dSample])
      (by norm_num [sClick, dClick, dSample]),
   c5_amended_noop_setters.2.2.2.2.1 sClick (Or.inl rfl),
   c5_amended_noop_setters.2.2.2.2.2.1 sSample rfl
      (Or.inl (by norm_num [sSample, dSample])),
   c5_amended_noop_setters.2.2.2.2.2.2.1 sNone rfl (by decide) (by decide)⟩

/-- Claim C6 (confirmed): the id → model registry is get-or-create — for two
`Difference` records with the same id, the second lookup returns exactly the
model stored by the first, so all views of one entity share one model. -/
theorem c6_registry_get_or_create (bus : Bus) (d1 d2 : Difference)
    (h : d1.id = d2.id) :
    (getModel (getModel bus d1).2 d2).1 = (getModel bus d1).1 := by
  unfold getModel
  rcases hl : List.lookup d1.id bus with _ | m
  · dsimp only
    rw [← h]
    simp [List.lookup, hl]
  · dsimp only
    rw [← h, hl]

/-- Witness for C6 at a concrete registry and record. -/
theorem c6_witness :
    (getModel (getModel ([] : Bus) dSample).2 dSample).1 =
      (getModel ([] : Bus) dSample).1 :=
  c6_registry_get_or_create ([] : Bus) dSample dSample rfl

/-- Claim C7 (confirmed): the `CLICK_MOVE` drag branch never changes the
click-region semi-axes — it writes only the center, clamped to the scene
using the press-time semi-axes (floored at 1) — while the `CLICK_EDGE` and
`CLICK_CORNER` branches never change the click-region center. -/
theorem c7_click_drag_frame (s : MState) (pressLocal pressCenter : Pt)
    (a0 b0 : ℚ) (shape : String) (ratio : ℚ) (cur : Pt) (sc : Scene)
    (code : EdgeCode) :
    ((clickMoveStep s pressLocal pressCenter a0 b0 cur sc).1.data.ca = s.data.ca ∧
     (clickMoveStep s pressLocal pressCenter a0 b0 cur sc).1.data.cb = s.data.cb) ∧
    (s.updating = false →
      (clickMoveStep s pressLocal pressCenter a0 b0 cur sc).1.data.ccx =
        min (max (sc.left + max 1 a0)
              (s.data.x + pressCenter.x + (cur.x - pressLocal.x)))
          (sc.right - max 1 a0) ∧
      (clickMoveStep s pressLocal pressCenter a0 b0 cur sc).1.data.ccy =
        min (max (sc.top + max 1 b0)
              (s.data.y + pressCenter.y + (cur.y - pressLocal.y)))
          (sc.bottom - max 1 b0)) ∧
    ((clickEdgeStep s code pressCenter a0 b0 cur sc).1.data.ccx = s.data.ccx ∧
     (clickEdgeStep s code pressCenter a0 b0 cur sc).1.data.ccy = s.data.ccy) ∧
    ((clickCornerStep s pressCenter a0 b0 shape ratio cur sc).1.data.ccx = s.data.ccx ∧
     (clickCornerStep s pressCenter a0 b0 shape ratio cur sc).1.data.ccy = s.data.ccy) := by
  refine ⟨?_, ?_, ?_, ?_⟩
  · exact setClickCenter_preserves_axes s _ _
  · intro hu
    have h := setClickCenter_stores s
      (min (max (sc.left + max 1 a0)
            (s.data.x + (pressCenter.x + (cur.x - pressLocal.x))))
        (sc.right - max 1 a0))
      (min (max (sc.top + max 1 b0)
            (s.data.y + (pressCenter.y + (cur.y - pressLocal.y))))
        (sc.bottom - max 1 b0)) hu
    constructor
    · rw [show s.data.x + pressCenter.x + (cur.x - pressLocal.x) =
          s.data.x + (pressCenter.x + (cur.x - pressLocal.x)) by ring]
      exact h.1
    · rw [show s.data.y + pressCenter.y + (cur.y - pressLocal.y) =
          s.data.y + (pressCenter.y + (cur.y - pressLocal.y)) by ring]
      exact h.2
  · exact setClickAxes_preserves_center s _ _
  · exact setClickAxes_preserves_center s _ _

/-- Witness for C7 at concrete inputs. -/
theorem c7_witness :
    ((clickMoveStep sClick ⟨0, 0⟩ ⟨500, 500⟩ 40 40 ⟨7, 9⟩ sceneCanvas).1.data.ca =
        sClick.data.ca ∧
      (clickMoveStep sClick ⟨0, 0⟩ ⟨500, 500⟩ 40 40 ⟨7, 9⟩ sceneCanvas).1.data.cb =
        sClick.data.cb) ∧
    (sClick.updating = false →
      (clickMoveStep sClick ⟨0, 0⟩ ⟨500, 500⟩ 40 40 ⟨7, 9⟩ sceneCanvas).1.data.ccx =
        min (max (sceneCanvas.left + max 1 40)
              (sClick.data.x + 500 + (7 - 0))) (sceneCanvas.right - max 1 40) ∧
      (clickMoveStep sClick ⟨0, 0⟩ ⟨500, 500⟩ 40 40 ⟨7, 9⟩ sceneCanvas).1.data.ccy =
        min (max (sceneCanvas.top + max 1 40)
              (sClick.data.y + 500 + (9 - 0))) (sceneCanvas.bottom - max 1 40)) ∧
    ((clickEdgeStep sClick EdgeCode.R ⟨500, 500⟩ 40 40 ⟨560, 500⟩ sceneCanvas).1.data.ccx =
        sClick.data.ccx ∧
      (clickEdgeStep sClick EdgeCode.R ⟨500, 500⟩ 40 40 ⟨560, 500⟩ sceneCanvas).1.data.ccy =
        sClick.data.ccy) ∧
    ((clickCornerStep sClick ⟨500, 500⟩ 40 40 "rect" 1 ⟨560, 560⟩ sceneCanvas).1.data.ccx =
        sClick.data.ccx ∧
      (clickCornerStep sClick ⟨500, 500⟩ 40 40 "rect" 1 ⟨560, 560⟩ sceneCanvas).1.data.ccy =
        sClick.data.ccy) := by
  have h := c7_click_drag_frame sClick ⟨0, 0⟩ ⟨500, 500⟩ 40 40 "rect" 1 ⟨7, 9⟩ sceneCanvas EdgeCode.R
  exact ⟨h.1,
    fun hu => (c7_click_drag_frame sClick ⟨0, 0⟩ ⟨500, 500⟩ 40 40 "rect" 1 ⟨7, 9⟩
      sceneCanvas EdgeCode.R).2.1 hu,
    (c7_click_drag_frame sClick ⟨0, 0⟩ ⟨500, 500⟩ 40 40 "rect" 1 ⟨560, 500⟩
      sceneCanvas EdgeCode.R).2.2.1,
    (c7_click_drag_frame sClick ⟨0, 0⟩ ⟨500, 500⟩ 40 40 "rect" 1 ⟨560, 560⟩
      sceneCanvas EdgeCode.R).2.2.2⟩

/-- Claim C10 (confirmed): while the batch flag is set, every mutator call
without `force=True` leaves the state unchanged and emits nothing — the
mutation is dropped, not deferred — and `end()` then clears the flag and
emits `anyChanged` exactly once, unconditionally. -/
theorem c10_batch_drops_mutations (s : MState) (hu : s.updating = true)
    (x y w h cx cy ccx0 ccy0 a b : ℚ) (sh : String) :
    setRect s x y w h false = (s, []) ∧
    setCircle s cx cy = (s, []) ∧
    setClickCenter s ccx0 ccy0 = (s, []) ∧
    setClickAxes s a b = (s, []) ∧
    setClickShape s sh = (s, []) ∧
    (∀ t : MState, endUpdate t = ({ t with updating := false }, [Sig.anyChanged])) := by
  refine ⟨?_, ?_, ?_, ?_, ?_, fun t => rfl⟩
  · unfold setRect; rw [if_pos ⟨hu, rfl⟩]
  · unfold setCircle; rw [if_pos hu]
  · unfold setClickCenter; rw [if_pos hu]
  · unfold setClickAxes; rw [if_pos hu]
  · unfold setClickShape; rw [if_pos hu]

/-- On the 200×200 uncustomised state, the pointer at `(0,100)` sits exactly
on the left handle of the fallback (rectangle-derived) click region, so the
handle hit test fires even though `click_customized` is false. -/
theorem hitClickHandle_s200_eval :
    hitClickHandle s200 true none 16 12 ⟨0, 100⟩ = some HCode.L := by
  norm_num [hitClickHandle, currentClickLocal, clickHandles, distLe,
    s200, d200, dSample, MIN_RECT_SIZE, min_def, max_def]

/-- Claim C8, as stated, is false about the participation condition: the
click-region handle test is gated only on the region being *shown*
(`_show_click`), not on `click_customized` — on an uncustomised 200×200
entity a press at `(0,100)` hits the derived region's left handle and enters
`CLICK_EDGE` mode. -/
theorem c8_counterexample :
    s200.data.click_customized = false ∧
    hitClickHandle s200 true none 16 12 ⟨0, 100⟩ = some HCode.L ∧
    mousePressMode s200 true true none 16 12 false ⟨0, 100⟩ = Mode.CLICK_EDGE := by
  refine ⟨rfl, hitClickHandle_s200_eval, ?_⟩
  simp [mousePressMode, hitClickHandle_s200_eval]

/-- Claim C8 (amended): on pointer-down the hit tests are evaluated in the
claimed priority order with first match winning — click-region corner/edge
handle, then click-region interior, then hint-marker interior, then
rectangle corner, then rectangle edge, then rectangle interior (`Move`) —
but the click-region handle test participates whenever the click region is
shown, whether or not it is customised (an uncustomised region falls back
to the rectangle-derived geometry).  A marker hit with the marker hidden
leaves the mode at `NONE`, as in the source. -/
theorem c8_amended_hit_priority (s : MState) (showClick showCircle : Bool)
    (sc : Option Scene) (pickE pickC : ℚ) (hitC : Bool) (pos : Pt) :
    hitClickHandle s false sc pickE pickC pos = none ∧
    (∀ code, hitClickHandle s showClick sc pickE pickC pos = some code →
      mousePressMode s showClick showCircle sc pickE pickC hitC pos =
        if code = HCode.L ∨ code = HCode.R ∨ code = HCode.T ∨ code = HCode.B
        then Mode.CLICK_EDGE else Mode.CLICK_CORNER) ∧
    (hitClickHandle s showClick sc pickE pickC pos = none →
      hitClickInside s showClick sc pos = true →
      mousePressMode s showClick showCircle sc pickE pickC hitC pos =
        Mode.CLICK_MOVE) ∧
    (hitClickHandle s showClick sc pickE pickC pos = none →
      hitClickInside s showClick sc pos = false →
      hitC = true → showCircle = true →
      mousePressMode s showClick showCircle sc pickE pickC hitC pos =
        Mode.DRAG_CIRCLE) ∧
    (hitClickHandle s showClick sc pickE pickC pos = none →
      hitClickInside s showClick sc pos = false →
      hitC = false →
      0 ≤ hitCorner (max MIN_RECT_SIZE s.data.width)
          (max MIN_RECT_SIZE s.data.height) pos →
      mousePressMode s showClick showCircle sc pickE pickC hitC pos =
        Mode.RESIZE_CORNER) ∧
    (hitClickHandle s showClick sc pickE pickC pos = none →
      hitClickInside s showClick sc pos = false →
      hitC = false →
      hitCorner (max MIN_RECT_SIZE s.data.width)
          (max MIN_RECT_SIZE s.data.height) pos < 0 →
      ∀ e, hitEdge (max MIN_RECT_SIZE s.data.width)
          (max MIN_RECT_SIZE s.data.height) pos = some e →
      mousePressMode s showClick showCircle sc pickE pickC hitC pos =
        Mode.RESIZE_EDGE) ∧
    (hitClickHandle s showClick sc pickE pickC pos = none →
      hitClickInside s showClick sc pos = false →
      hitC = false →
      hitCorner (max MIN_RECT_SIZE s.data.width)
          (max MIN_RECT_SIZE s.data.height) pos < 0 →
      hitEdge (max MIN_RECT_SIZE s.data.width)
          (max MIN_RECT_SIZE s.data.height) pos = none →
      mousePressMode s showClick showCircle sc pickE pickC hitC pos =
        Mode.MOVE) := by
  refine ⟨rfl, ?_, ?_, ?_, ?_, ?_, ?_⟩
  · intro code hcode
    simp [mousePressMode, hcode]
  · intro h1 h2
    simp [mousePressMode, h1, h2]
  · intro h1 h2 h3 h4
    simp [mousePressMode, h1, h2, h3, h4]
  · intro h1 h2 h3 h4
    simp [mousePressMode, h1, h2, h3, h4]
  · intro h1 h2 h3 h4 e he
    simp [mousePressMode, h1, h2, h3, not_le.mpr h4, he]
  · intro h1 h2 h3 h4 h5
    simp [mousePressMode, h1, h2, h3, not_le.mpr h4, h5]

/-- Witness for the amended C8 theorem: the concrete left-handle hit on the
uncustomised 200×200 state selects `CLICK_EDGE`. -/
theorem c8_amended_witness :
    mousePressMode s200 true true none 16 12 false ⟨0, 100⟩ =
      (if HCode.L = HCode.L ∨ HCode.L = HCode.R ∨ HCode.L = HCode.T ∨
          HCode.L = HCode.B
       then Mode.CLICK_EDGE else Mode.CLICK_CORNER) :=
  (c8_amended_hit_priority s200 true true none 16 12 false ⟨0, 100⟩).2.1
    HCode.L hitClickHandle_s200_eval

/-- Claim C9 (confirmed): the auto hint-level selection is monotone
non-decreasing in `min(width, height)` — shrinking a rectangle never
increases the selected level, including across the fallback to level 1 when
no table entry fits. -/
theorem c9_autoLevel_monotone (w1 h1 w2 h2 : ℚ)
    (h : min w1 h1 ≤ min w2 h2) :
    autoLevel w1 h1 ≤ autoLevel w2 h2 := by
  have hlen := autoAllowed_length_mono w1 h1 w2 h2 h
  unfold autoLevel
  by_cases e1 : autoAllowed w1 h1 = []
  · rw [if_pos e1]
    by_cases e2 : autoAllowed w2 h2 = []
    · rw [if_pos e2]
    · rw [if_neg e2]
      exact List.length_pos.mpr e2
  · rw [if_neg e1]
    by_cases e2 : autoAllowed w2 h2 = []
    · rw [e2] at hlen
      simp only [List.length_nil, Nat.le_zero, List.length_eq_zero] at hlen
      exact absurd hlen e1
    · rw [if_neg e2]
      exact hlen

/-- Witness for C9: a 120×130 rectangle gets a level no larger than a
200×210 one. -/
theorem c9_witness : autoLevel 120 130 ≤ autoLevel 200 210 :=
  c9_autoLevel_monotone 120 130 200 210 (by norm_num [min_def])

/-- Witness for C10: a freshly opened batch on the sample state swallows a
rect mutation and `end()` emits once. -/
theorem c10_witness :
    setRect (beginUpdate sSample) 1 2 300 400 false = (beginUpdate sSample, []) ∧
    setCircle (beginUpdate sSample) 5 6 = (beginUpdate sSample, []) ∧
    setClickCenter (beginUpdate sSample) 7 8 = (beginUpdate sSample, []) ∧
    setClickAxes (beginUpdate sSample) 9 10 = (beginUpdate sSample, []) ∧
    setClickShape (beginUpdate sSample) "ellipse" = (beginUpdate sSample, []) ∧
    (∀ t : MState, endUpdate t = ({ t with updating := false }, [Sig.anyChanged])) :=
  c10_batch_drops_mutations (beginUpdate sSample) rfl 1 2 300 400 5 6 7 8 9 10 "ellipse"

end FindDiff
